import Mathlib

/-!
# Verification of the parser-api fetch orchestration engine

Shallow embedding, in Lean 4, of the core of the `parser-api` repository:

* `src/lib/proxy-utils.mjs` — `getProxyConfig`, `isPageBlocked`,
  `createProxyErrorResponse`;
* `src/lib/browse-optimized.mjs` — `browse`, `performRequest`,
  `shouldRetryWithProxy`, `shouldBlockRequest`, `getErrorReason`;
* the `BrowserPool` class (`getBrowser`, constructor) shipped alongside the
  validation schema.

JavaScript values are modelled as follows: possibly-absent object fields are
`Option` values; JavaScript string/number truthiness is made explicit by the
`truthy*` helpers; `NaN` produced by `parseInt` is `none`; wall-clock elapsed
times are oracle inputs (`Nat`), since only field identity and plumbing of
these values is claimed.  The Puppeteer automation engine is an opaque
external collaborator: its behaviour during one attempt (navigation response,
page title/content, rejections) is an oracle input (`NavBehavior`).  A
rejection value is a `JsError` whose `message` field may be absent, exactly
as the source contemplates with `error.message || 'Unknown error'`.
-/

namespace ParserApi

/-- Membership of `needle` as a contiguous run inside `hay`, by scanning every
suffix, mirroring the semantics of `String.prototype.includes`. -/
def occursIn (needle hay : List Char) : Bool :=
  match hay with
  | [] => needle.isEmpty
  | _ :: t => needle.isPrefixOf hay || occursIn needle t

/-- Model of the JavaScript `s.includes(sub)` substring test. -/
def jsIncludes (s sub : String) : Bool :=
  occursIn sub.data s.data

/-- Model of `s.toLowerCase()` (character-wise lowering, the semantics of
`String.toLower`, written structurally over the character list). -/
def jsToLower (s : String) : String :=
  ⟨s.data.map Char.toLower⟩

/-- Model of `s.startsWith(pre)`. -/
def jsStartsWith (s pre : String) : Bool :=
  pre.data.isPrefixOf s.data

/-- Truthiness of a possibly-absent JavaScript string (absent and the empty
string are falsy). -/
def truthyStr : Option String → Bool
  | none => false
  | some s => s != ""

/-- Truthiness of a possibly-absent JavaScript boolean (absent is falsy). -/
def truthyBool : Option Bool → Bool
  | none => false
  | some b => b

/-- Truthiness of a possibly-absent JavaScript number; `none` models `NaN`
(falsy), and `0` is falsy. -/
def truthyInt : Option Int → Bool
  | none => false
  | some v => v != 0

/-- Model of `parseInt(s, 10)`: trim, optional sign, longest digit prefix;
`none` models `NaN` when no digits are found. -/
def jsParseInt (s : String) : Option Int :=
  let t := s.data.dropWhile Char.isWhitespace
  let signed : Int × List Char :=
    match t with
    | '-' :: r => (-1, r)
    | '+' :: r => (1, r)
    | r => (1, r)
  let ds := signed.2.takeWhile Char.isDigit
  if ds.isEmpty then none
  else some (signed.1 * (ds.foldl (fun a c => a * 10 + (c.toNat - 48)) 0 : Nat))

/-- Model of `a || b` on possibly-absent JavaScript strings: the left operand
when truthy, otherwise the right operand. -/
def jsOrStr (a b : Option String) : Option String :=
  if truthyStr a then a else b

/-- Model of `a || dflt` where `dflt` is a present string literal. -/
def jsOrString (a : Option String) (dflt : String) : String :=
  if truthyStr a then a.getD "" else dflt

/-- The proxy-related environment variables read by `getProxyConfig` and
browser-pool configuration (`process.env.PROXY_*`). -/
structure Env where
  PROXY_HOST : Option String := none
  PROXY_PORT : Option String := none
  PROXY_USERNAME : Option String := none
  PROXY_PASSWORD : Option String := none
  deriving Repr

/-- The `proxy` object of a request body as it reaches `getProxyConfig`
(fields per the validation schema; every field may be absent). -/
structure RequestProxy where
  enabled : Option Bool := none
  type : Option String := none
  host : Option String := none
  port : Option Int := none
  username : Option String := none
  password : Option String := none
  deriving Repr

/-- The effective proxy configuration object built by `getProxyConfig`.
`port` is `Option Int` because the environment branch stores
`parseInt(process.env.PROXY_PORT, 10)`, which can be `NaN` (modelled `none`). -/
structure ProxyConfig where
  enabled : Bool
  type : String
  host : String
  port : Option Int
  username : Option String
  password : Option String
  deriving Repr, DecidableEq

/-- Message of the error thrown by `getProxyConfig` when the proxy is
requested but unresolvable from both sources (proxy-utils.mjs line 51). -/
def proxyMissingMsg : String :=
  "Proxy is enabled but host, port, username, or password are missing from both request and environment variables"

/-- Message of the error thrown by the final host/port validation in
`getProxyConfig` (proxy-utils.mjs line 57). -/
def hostPortRequiredMsg : String :=
  "Proxy host and port are required"

/-- Embedding of `getProxyConfig` (proxy-utils.mjs lines 19-69).  `Except` is
the thrown `ConfigurationError`; `Option ProxyConfig` is the returned value
(`none` models the returned `null`).  Advisory logging is omitted. -/
def getProxyConfig (env : Env) (requestProxy : RequestProxy) :
    Except String (Option ProxyConfig) :=
  if requestProxy.enabled = some false then
    .ok none
  else
    let built : Except String (Option ProxyConfig) :=
      if truthyBool requestProxy.enabled && truthyStr requestProxy.host
          && truthyInt requestProxy.port then
        .ok (some
          { enabled := true
            type := jsOrString requestProxy.type "hybrid"
            host := requestProxy.host.getD ""
            port := requestProxy.port
            username := requestProxy.username
            password := requestProxy.password })
      else if truthyStr env.PROXY_HOST && truthyStr env.PROXY_PORT then
        .ok (some
          { enabled := true
            type := jsOrString requestProxy.type "hybrid"
            host := env.PROXY_HOST.getD ""
            port := jsParseInt (env.PROXY_PORT.getD "")
            username := jsOrStr requestProxy.username env.PROXY_USERNAME
            password := jsOrStr requestProxy.password env.PROXY_PASSWORD })
      else if requestProxy.enabled = some true then
        .error proxyMissingMsg
      else
        .ok none
    match built with
    | .error m => .error m
    | .ok none => .ok none
    | .ok (some pc) =>
      if !(pc.host != "" && truthyInt pc.port) then .error hostPortRequiredMsg
      else .ok (some pc)

/-- A navigation response as consumed by `isPageBlocked` (only the HTTP
status participates in any decision). -/
structure Response where
  status : Int
  deriving Repr, DecidableEq

/-- The fixed indicator set scanned by `isPageBlocked`
(proxy-utils.mjs lines 128-138). -/
def blockingIndicators : List String :=
  ["blocked", "access denied", "forbidden", "rate limit", "captcha",
   "cloudflare", "ddos protection", "security check", "bot detection"]

/-- Embedding of `isPageBlocked` (proxy-utils.mjs lines 109-161).  The first
argument is the `page.goto` result (`none` models a `null` response); the
second is the outcome of reading `page.title()` and `page.content()`, with
`none` modelling the engine failing that inspection (the catch returns
`true`, fail-safe toward retry). -/
def isPageBlocked (response : Option Response)
    (inspect : Option (String × String)) : Bool :=
  match response with
  | none => true
  | some resp =>
    if [(403 : Int), 429, 503].contains resp.status then true
    else
      match inspect with
      | none => true
      | some (title, content) =>
        let titleLower := jsToLower title
        let contentLower := jsToLower content
        if blockingIndicators.any
            (fun ind => jsIncludes titleLower ind || jsIncludes contentLower ind) then
          true
        else if content.length < 500 && !jsIncludes contentLower "<!doctype"
            && !jsIncludes contentLower "<html" then
          true
        else false

/-- Embedding of `getErrorReason` (browse-optimized.mjs lines 300-320),
the substring-matching classification of an engine error message. -/
def getErrorReason (message : String) : String :=
  let m := jsToLower message
  if jsIncludes m "timeout" || jsIncludes m "navigation timeout" then "timeout"
  else if jsIncludes m "net::err_name_not_resolved" then "dns_error"
  else if jsIncludes m "net::err_connection_refused" then "connection_refused"
  else if jsIncludes m "net::err_ssl_version_or_cipher_mismatch" then "ssl_error"
  else if jsIncludes m "invalid url" then "invalid_url"
  else "unknown_error"

/-- The payload of a `FetchResult`.  Fields of the JavaScript object that are
absent on some paths are `Option` values (`none` means the field is not in
the object at all); claims about the network trace, metrics, screenshot and
timestamp fields are not in scope, so those fields are not modelled. -/
structure FetchData where
  exec : Nat := 0
  url : String := ""
  reason : Option String := none
  message : Option String := none
  proxy_used : Option String := none
  title : Option String := none
  html : Option String := none
  deriving Repr, DecidableEq

/-- A result returned by `browse`/`performRequest`. -/
structure FetchResult where
  status : String
  data : FetchData
  deriving Repr, DecidableEq

/-- Embedding of `createProxyErrorResponse` (proxy-utils.mjs lines 170-192).
Note that the constructed `data` object has no `proxy_used` field. -/
def createProxyErrorResponse (errMessage url : String) (executionTime : Nat) :
    FetchResult :=
  let msg := if errMessage = "" then "Proxy error" else errMessage
  let reason :=
    if jsIncludes msg "PROXY_" then "proxy_authentication_failed"
    else if jsIncludes msg "timeout" then "proxy_timeout"
    else if jsIncludes msg "connection" then "proxy_connection_failed"
    else "proxy_error"
  { status := "error"
    data := { exec := executionTime, url := url, reason := some reason,
              message := some msg } }

/-- Embedding of `shouldRetryWithProxy` (browse-optimized.mjs lines 235-258). -/
def retryReasons : List String := ["timeout", "connection_refused", "dns_error"]

/-- The message substrings that trigger a hybrid retry
(browse-optimized.mjs line 245). -/
def retryMessages : List String :=
  ["blocked", "access denied", "forbidden", "rate limit", "captcha"]

/-- Embedding of `shouldRetryWithProxy` (browse-optimized.mjs lines 235-258).
The source reads `result.data.reason` and `result.data.message` directly;
every error result built by `performRequest` carries both fields. -/
def shouldRetryWithProxy (result : FetchResult) : Bool :=
  if result.status != "error" then false
  else
    let reason := result.data.reason.getD ""
    let message := jsToLower (result.data.message.getD "")
    retryReasons.contains reason
      || retryMessages.any (fun m => jsIncludes message m)

/-- A block/allow decision of the request filter. -/
structure BlockDecision where
  block : Bool
  reason : String
  deriving Repr, DecidableEq

/-- Embedding of `shouldBlockRequest` (browse-optimized.mjs lines 263-295).
The source reads `request.url()` and `request.resourceType()`; they are
passed here directly. -/
def shouldBlockRequest (resourceType url : String)
    (allowTypes blockUrls : List String) : BlockDecision :=
  if blockUrls.any (fun blockedUrl => jsIncludes url blockedUrl) then
    { block := true, reason := "blocked_url" }
  else if resourceType == "image" && jsStartsWith url "data:image/" then
    { block := true, reason := "data_uri_image" }
  else if resourceType == "font" then
    { block := true, reason := "font_blocked" }
  else if resourceType == "document" then
    { block := false, reason := "document_allowed" }
  else if allowTypes.length > 0 && !allowTypes.contains resourceType then
    { block := true, reason := "not_in_allow_list" }
  else
    { block := false, reason := "allowed" }

/-- A value thrown by the JavaScript engine.  `message` is `none` when the
thrown value has no `message` property (a non-`Error` throw); the source
contemplates this with `error.message || 'Unknown error'`. -/
structure JsError where
  message : Option String := none
  deriving Repr, DecidableEq

/-- Engine behaviour during one `performRequest` attempt, an oracle input:
either some engine operation up to and including `page.goto` rejects
(`thrown`), or navigation completes with `response`, page title/content
`title`/`content` (whose reading rejects with `inspectError` when set), and
elapsed wall-clock time `elapsed`. -/
structure NavBehavior where
  thrown : Option JsError := none
  response : Option Response := none
  inspectError : Option JsError := none
  title : String := ""
  content : String := ""
  elapsed : Nat := 0
  deriving Repr

/-- The `proxy_used` string of a result: `host:port` for a proxy-bound
attempt, the literal string `none` otherwise (browse-optimized.mjs
lines 181, 203). -/
def proxyUsedStr : Option ProxyConfig → String
  | some pc => pc.host ++ ":" ++ (match pc.port with
      | some v => toString v
      | none => "NaN")
  | none => "none"

/-- Message of the `TypeError` raised inside the catch block of
`performRequest` when the caught value has no `message` property
(line 210 evaluates `error.message.toLowerCase()`). -/
def jsTypeErrorMsg : String := "Cannot read properties of undefined"

/-- The catch block of `performRequest` (browse-optimized.mjs lines 199-216):
an error whose message is present becomes an error `FetchResult` carrying
`proxy_used` and the elapsed time; an error without a message makes the
catch block itself throw a `TypeError`, which escapes `performRequest`. -/
def attemptCatch (url pu : String) (elapsed : Nat) (e : JsError) :
    Except String FetchResult :=
  match e.message with
  | some m =>
    .ok { status := "error"
          data := { exec := elapsed, url := url,
                    reason := some (getErrorReason m)
                    message := some (if m = "" then "Unknown error" else m)
                    proxy_used := some pu } }
  | none => .error jsTypeErrorMsg

/-- Embedding of `performRequest` (browse-optimized.mjs lines 99-230) for one
attempt with engine behaviour `nav`.  The blocked check runs only when the
attempt itself was handed a proxy configuration of type `hybrid`
(line 159); on success the result carries `proxy_used`, title and content.
Viewport, user-agent, interception and screenshot side effects have no
bearing on any claim and are not modelled; page/browser cleanup is
side-effect-only (failures swallowed, lines 217-229). -/
def performRequest (url : String) (proxyConfig : Option ProxyConfig)
    (nav : NavBehavior) : Except String FetchResult :=
  match nav.thrown with
  | some e => attemptCatch url (proxyUsedStr proxyConfig) nav.elapsed e
  | none =>
    if (match proxyConfig with
        | some pc => pc.type == "hybrid"
        | none => false)
        && isPageBlocked nav.response
          (match nav.inspectError with
           | some _ => none
           | none => some (nav.title, nav.content)) then
      attemptCatch url (proxyUsedStr proxyConfig) nav.elapsed
        { message := some "Page appears to be blocked" }
    else
      match nav.inspectError with
      | some e => attemptCatch url (proxyUsedStr proxyConfig) nav.elapsed e
      | none =>
        .ok { status := "ok"
              data := { exec := nav.elapsed, url := url,
                        proxy_used := some (proxyUsedStr proxyConfig)
                        title := some nav.title, html := some nav.content } }

/-- The outer catch of `browse` (browse-optimized.mjs lines 77-93); its error
payload has no `proxy_used` field. -/
def outerCatch (url msg : String) (elapsed : Nat) : FetchResult :=
  { status := "error"
    data := { exec := elapsed, url := url
              reason := some (getErrorReason msg)
              message := some (if msg = "" then "Unknown error" else msg) } }

/-- Oracle inputs of one `browse` call: the outcome of `new URL(url)`
(`some m` is a rejection with message `m`), the engine behaviour of the
i-th `performRequest` attempt, and the elapsed times read on the
proxy-resolution-failure path and in the outer catch. -/
structure BrowseOracle where
  urlError : Option String := none
  navs : Nat → NavBehavior := fun _ => {}
  resolveElapsed : Nat := 0
  outerElapsed : Nat := 0

/-- The hybrid branch of `browse` (browse-optimized.mjs lines 50-70),
returning the result together with the list of `performRequest` invocations
(the proxy configuration passed to each, in order).  The retry on line 62
sits inside the try whose catch (line 66) performs a further proxy-bound
attempt; a rejection of `performRequest` is therefore caught there. -/
def hybridBrowse (url : String) (pc : ProxyConfig) (o : BrowseOracle) :
    FetchResult × List (Option ProxyConfig) :=
  match performRequest url none (o.navs 0) with
  | .error _ =>
    match performRequest url (some pc) (o.navs 1) with
    | .ok r1 => (r1, [none, some pc])
    | .error m1 => (outerCatch url m1 o.outerElapsed, [none, some pc])
  | .ok r =>
    if r.status == "error" && shouldRetryWithProxy r then
      match performRequest url (some pc) (o.navs 1) with
      | .ok r1 => (r1, [none, some pc])
      | .error _ =>
        match performRequest url (some pc) (o.navs 2) with
        | .ok r2 => (r2, [none, some pc, some pc])
        | .error m2 => (outerCatch url m2 o.outerElapsed, [none, some pc, some pc])
    else (r, [none])

/-- One attempt performed by a non-hybrid branch of `browse`; a rejection
escapes to the outer catch. -/
def runSingleAttempt (url : String) (pcArg : Option ProxyConfig)
    (o : BrowseOracle) : FetchResult × List (Option ProxyConfig) :=
  match performRequest url pcArg (o.navs 0) with
  | .ok r => (r, [pcArg])
  | .error m => (outerCatch url m o.outerElapsed, [pcArg])

/-- Embedding of `browse` (browse-optimized.mjs lines 28-94): URL validation,
proxy resolution, then the static / hybrid / no-proxy branches.  Returns the
final `FetchResult` together with the list of `performRequest` invocations
performed (their proxy argument, in order). -/
def browse (env : Env) (requestProxy : RequestProxy) (url : String)
    (o : BrowseOracle) : FetchResult × List (Option ProxyConfig) :=
  match o.urlError with
  | some m => (outerCatch url m o.outerElapsed, [])
  | none =>
    match getProxyConfig env requestProxy with
    | .error m => (createProxyErrorResponse m url o.resolveElapsed, [])
    | .ok proxyConfigOpt =>
      match proxyConfigOpt with
      | some pc =>
        if pc.type == "static" then runSingleAttempt url (some pc) o
        else if pc.type == "hybrid" then hybridBrowse url pc o
        else runSingleAttempt url none o
      | none => runSingleAttempt url none o

/-- State of a `BrowserPool` instance.  Browser instances are identified by
the order of their creation (`nextId` counts launches); `closed` records the
instances on which `close()` was called by `getBrowser`; which instances are
currently connected is an oracle passed to each step. -/
structure PoolState where
  browsers : List Nat
  maxBrowsers : Nat
  currentIndex : Nat
  nextId : Nat
  closed : List Nat
  deriving Repr, DecidableEq

/-- The `BrowserPool` constructor (maxBrowsers defaults to 3). -/
def poolInit (maxBrowsers : Nat := 3) : PoolState :=
  { browsers := [], maxBrowsers := maxBrowsers, currentIndex := 0,
    nextId := 0, closed := [] }

/-- Embedding of `BrowserPool.getBrowser` (validation.mjs pool section):
with a proxy configuration a fresh ephemeral instance is created and the
pool is untouched; below capacity a new instance is appended; at capacity
the instance at `currentIndex` is read, `currentIndex` is advanced modulo
the pool length, and only then, if the read instance is disconnected, it is
closed and the replacement is written at the already-advanced
`this.currentIndex`. -/
def getBrowser (s : PoolState) (connected : Nat → Bool) (withProxy : Bool) :
    Nat × PoolState :=
  if withProxy then
    (s.nextId, { s with nextId := s.nextId + 1 })
  else if s.browsers.length < s.maxBrowsers then
    (s.nextId, { s with browsers := s.browsers ++ [s.nextId],
                        nextId := s.nextId + 1 })
  else
    let browser := s.browsers.getD s.currentIndex 0
    let newIndex := (s.currentIndex + 1) % s.browsers.length
    if !connected browser then
      (s.nextId,
        { s with currentIndex := newIndex
                 closed := s.closed ++ [browser]
                 browsers := s.browsers.set newIndex s.nextId
                 nextId := s.nextId + 1 })
    else
      (browser, { s with currentIndex := newIndex })

/-- One `getBrowser` call in a call sequence: pooled (`acquire(null)`) or
ephemeral (`acquire` with a proxy configuration), with the connectivity
oracle observed at that step. -/
inductive AcquireStep where
  | pooled (connected : Nat → Bool)
  | ephemeral (connected : Nat → Bool)

/-- Fold a sequence of `getBrowser` calls over a pool state. -/
def runSteps (s : PoolState) : List AcquireStep → PoolState
  | [] => s
  | AcquireStep.pooled conn :: rest => runSteps (getBrowser s conn false).2 rest
  | AcquireStep.ephemeral conn :: rest => runSteps (getBrowser s conn true).2 rest

/-- Perform `n` successive `acquire(null)` calls with a fixed connectivity
oracle, collecting the returned instance identities in call order. -/
def runAcquireIds (conn : Nat → Bool) : Nat → PoolState → List Nat × PoolState
  | 0, s => ([], s)
  | n + 1, s =>
    let r := getBrowser s conn false
    let rest := runAcquireIds conn n r.2
    (r.1 :: rest.1, rest.2)

/-! ## Browser-pool lemmas -/

/-- The capacity field is never changed by `getBrowser`. -/
theorem getBrowser_maxBrowsers (s : PoolState) (conn : Nat → Bool) (p : Bool) :
    (getBrowser s conn p).2.maxBrowsers = s.maxBrowsers := by
  unfold getBrowser
  split
  · rfl
  split
  · rfl
  dsimp only
  split <;> rfl

/-- One `getBrowser` call preserves the pool-size bound: a push happens only
below capacity, and the at-capacity branch only overwrites a slot. -/
theorem getBrowser_length_le (s : PoolState) (conn : Nat → Bool) (p : Bool)
    (h : s.browsers.length ≤ s.maxBrowsers) :
    (getBrowser s conn p).2.browsers.length ≤ s.maxBrowsers := by
  unfold getBrowser
  split
  · exact h
  split
  next hlt => simpa using hlt
  dsimp only
  split
  · simpa [List.length_set] using h
  · exact h

/-- Capacity is constant along any sequence of `getBrowser` calls. -/
theorem runSteps_maxBrowsers (steps : List AcquireStep) (s : PoolState) :
    (runSteps s steps).maxBrowsers = s.maxBrowsers := by
  induction steps generalizing s with
  | nil => rfl
  | cons step rest ih =>
    cases step with
    | pooled conn =>
      rw [runSteps, ih, getBrowser_maxBrowsers]
    | ephemeral conn =>
      rw [runSteps, ih, getBrowser_maxBrowsers]

/-- The pool-size bound is an invariant of arbitrary `getBrowser` sequences. -/
theorem runSteps_length_le (steps : List AcquireStep) (s : PoolState)
    (h : s.browsers.length ≤ s.maxBrowsers) :
    (runSteps s steps).browsers.length ≤ (runSteps s steps).maxBrowsers := by
  induction steps generalizing s with
  | nil => simpa [runSteps] using h
  | cons step rest ih =>
    cases step with
    | pooled conn =>
      rw [runSteps]
      exact ih _ ((getBrowser_maxBrowsers s conn false) ▸
        getBrowser_length_le s conn false h)
    | ephemeral conn =>
      rw [runSteps]
      exact ih _ ((getBrowser_maxBrowsers s conn true) ▸
        getBrowser_length_le s conn true h)

/-! ## Claims -/

/-- Claim C1 (code_bug): in hybrid mode the spec expects a direct attempt
whose navigation completes with an HTTP 403 to raise a blocked condition and
to be retried once through the proxy.  The code does not do this: the direct
attempt is invoked with a null proxy configuration, so the guard
`proxyConfig && proxyConfig.type === 'hybrid'` on the blocked check fails
and `isPageBlocked` is never consulted; the completed 403 navigation is
assembled into an `ok` result which is returned as the final outcome with
`proxy_used` set to `none` and no retry attempt, even though `isPageBlocked`
judges a 403 response blocked (second conjunct). -/
theorem C1_direct_attempt_skips_block_check :
    browse {} { enabled := some true, type := some "hybrid", host := some "h",
                port := some 8080 } "https://x/"
      { navs := fun _ => { response := some { status := 403 }, title := "t",
                           content := "c", elapsed := 2 } } =
    ({ status := "ok",
       data := { exec := 2, url := "https://x/", proxy_used := some "none",
                 title := some "t", html := some "c" } }, [none])
    ∧ isPageBlocked (some { status := 403 }) (some ("t", "c")) = true := by
  decide

/-- Claim C2 (code_bug): when the pool is full and the instance at the
cursor is disconnected, the spec expects that slot to be replaced.  The code
advances `currentIndex` before the disconnected check and then stores the
replacement at the already-advanced index: starting from the full pool
`[0, 1, 2]` with cursor `0` and instance `0` disconnected, `acquire(null)`
closes instance `0`, creates instance `3`, but writes it into slot `1`
(evicting the healthy instance `1` without closing it) and leaves the closed
instance `0` in slot `0`; the spec-mandated outcome would be the pool
`[3, 1, 2]`. -/
theorem C2_replacement_written_past_cursor :
    getBrowser { browsers := [0, 1, 2], maxBrowsers := 3, currentIndex := 0,
                 nextId := 3, closed := [] } (fun n => n != 0) false =
    (3, { browsers := [0, 3, 2], maxBrowsers := 3, currentIndex := 1,
          nextId := 4, closed := [0] }) := by
  decide

/-- Claim C3 (counterexample): the claim states that every `FetchResult`,
including error results produced before any navigation attempt, carries a
`proxy_used` field.  On the proxy `ConfigurationError` path the result is
built by `createProxyErrorResponse`, whose payload has no `proxy_used`
field at all: a request with `enabled: true` and no host/port anywhere
yields an error result whose `proxy_used` field is absent. -/
theorem C3_config_error_result_lacks_proxy_used :
    ((browse {} { enabled := some true } "https://x/" {}).1).status = "error"
    ∧ ((browse {} { enabled := some true } "https://x/" {}).1).data.proxy_used = none := by
  decide

/-- Every result that `attemptCatch` returns (rather than rethrows) carries
the `proxy_used` and elapsed-time values it was handed. -/
theorem attemptCatch_ok_fields (url pu : String) (el : Nat) (e : JsError)
    (r : FetchResult) (h : attemptCatch url pu el e = Except.ok r) :
    r.data.proxy_used = some pu ∧ r.data.exec = el := by
  unfold attemptCatch at h
  split at h
  · cases h
    exact ⟨rfl, rfl⟩
  · cases h

/-- Every result returned by `performRequest` carries `proxy_used` equal to
`proxyUsedStr` of its proxy argument and `exec` equal to the attempt's
elapsed time, on the success path and on every in-attempt error path. -/
theorem performRequest_ok_fields (url : String) (pc : Option ProxyConfig)
    (nav : NavBehavior) (r : FetchResult)
    (h : performRequest url pc nav = Except.ok r) :
    r.data.proxy_used = some (proxyUsedStr pc) ∧ r.data.exec = nav.elapsed := by
  unfold performRequest at h
  split at h
  · exact attemptCatch_ok_fields _ _ _ _ _ h
  · split at h
    · exact attemptCatch_ok_fields _ _ _ _ _ h
    · split at h
      · exact attemptCatch_ok_fields _ _ _ _ _ h
      · cases h
        exact ⟨rfl, rfl⟩

/-- Claim C3 (amended): every `FetchResult` produced inside an attempt
(`performRequest`) carries `proxy_used` equal to `host:port` when the
attempt was proxy-bound and `none` otherwise, and error results produced
inside an attempt carry the same `proxy_used` and elapsed-time fields as a
success would; but the error results produced before any navigation attempt
— the proxy `ConfigurationError` response and the outer catch that handles
invalid URLs — omit the `proxy_used` field entirely. -/
theorem C3_proxy_used_field_placement (url : String) (pc : Option ProxyConfig)
    (nav : NavBehavior) (r : FetchResult) (msg m : String) (el : Nat)
    (h : performRequest url pc nav = Except.ok r) :
    (r.data.proxy_used = some (proxyUsedStr pc) ∧ r.data.exec = nav.elapsed)
    ∧ (createProxyErrorResponse msg url el).data.proxy_used = none
    ∧ (outerCatch url m el).data.proxy_used = none :=
  ⟨performRequest_ok_fields url pc nav r h, rfl, rfl⟩

/-- Concrete instance of the amended C3 theorem: a no-proxy attempt with
default engine behaviour succeeds and its result carries
`proxy_used = "none"` and the attempt's elapsed time. -/
theorem C3_proxy_used_field_placement_witness :
    performRequest "https://x/" none {} =
      Except.ok { status := "ok",
                  data := { exec := 0, url := "https://x/",
                            proxy_used := some "none",
                            title := some "", html := some "" } }
    ∧ ({ status := "ok",
         data := { exec := 0, url := "https://x/", proxy_used := some "none",
                   title := some "", html := some "" } } : FetchResult).data.proxy_used
        = some (proxyUsedStr none) := by
  refine ⟨by rfl, ?_⟩
  exact (C3_proxy_used_field_placement "https://x/" none {}
    { status := "ok",
      data := { exec := 0, url := "https://x/", proxy_used := some "none",
                title := some "", html := some "" } } "m" "m" 0 (by rfl)).1.1

/-- Claim C4 (counterexample): the claim states that at most one retry is
ever performed on any execution path.  The hybrid retry sits inside the try
block whose catch performs a further proxy-bound attempt, so when the direct
attempt returns a retryable `timeout` error and the first proxy retry
rejects with a value carrying no `message` property (the catch block of
`performRequest` then itself throws on `error.message.toLowerCase()`), a
second proxy-bound attempt is performed: the attempt trace contains one
direct and two proxy-bound attempts. -/
theorem C4_two_proxy_retries_possible :
    ((browse {} { enabled := some true, type := some "hybrid", host := some "h",
                  port := some 8080 } "https://x/"
      { navs := fun i =>
          if i = 0 then
            { thrown := some { message := some "Navigation timeout of 5000 ms exceeded" },
              elapsed := 5 }
          else if i = 1 then { thrown := some { message := none } }
          else { response := some { status := 200 }, title := "t",
                 content := "<html>ok</html>", elapsed := 9 } }).2.map
        Option.isSome) = [false, true, true] := by
  decide

/-- Claim C4 (amended): in hybrid mode, when the direct attempt returns an
error result classified retryable (reason in timeout/connection_refused/
dns_error or message containing a retry substring) and the proxy retry
returns a result, exactly that one retry is performed and its outcome is
final; for every other direct result the direct result is returned
unchanged; and at most two proxy-bound attempts ever occur on any path (the
second only when the first proxy retry itself throws rather than returning
a result). -/
theorem C4_hybrid_retry_policy (env : Env) (rp : RequestProxy) (url : String)
    (o : BrowseOracle) (pc : ProxyConfig)
    (hres : getProxyConfig env rp = Except.ok (some pc))
    (htype : pc.type = "hybrid")
    (hurl : o.urlError = none) :
    (∀ r, performRequest url none (o.navs 0) = Except.ok r →
      (∀ r1, r.status = "error" → shouldRetryWithProxy r = true →
        performRequest url (some pc) (o.navs 1) = Except.ok r1 →
        browse env rp url o = (r1, [none, some pc]))
      ∧ (¬(r.status = "error" ∧ shouldRetryWithProxy r = true) →
        browse env rp url o = (r, [none])))
    ∧ ((browse env rp url o).2.filter Option.isSome).length ≤ 2 := by
  have hb : browse env rp url o = hybridBrowse url pc o := by
    unfold browse
    rw [hurl, hres]
    dsimp only
    rw [htype]
    simp
  constructor
  · intro r hr
    constructor
    · intro r1 hst hretry hr1
      rw [hb]
      unfold hybridBrowse
      rw [hr]
      dsimp only
      rw [hst, hretry, hr1]
      simp
    · intro hnot
      have hcond : (r.status == "error" && shouldRetryWithProxy r) = false := by
        rcases hcb : (r.status == "error") with _ | _
        · simp
        · rcases hsr : shouldRetryWithProxy r with _ | _
          · simp
          · exact absurd ⟨by simpa using hcb, hsr⟩ hnot
      rw [hb]
      unfold hybridBrowse
      rw [hr]
      dsimp only
      rw [hcond]
      simp
  · rw [hb]
    unfold hybridBrowse
    split
    · split
      · simp
      · simp
    · split
      · split
        · simp
        · split
          · simp
          · simp
      · simp

/-- Concrete instance of the amended C4 theorem: a hybrid request whose
direct attempt succeeds is returned unchanged with a single direct attempt. -/
theorem C4_hybrid_retry_policy_witness :
    browse {} { enabled := some true, type := some "hybrid", host := some "h",
                port := some 8080 } "https://x/"
      { navs := fun _ => { response := some { status := 200 }, title := "t",
                           content := "<html>ok</html>", elapsed := 1 } } =
    ({ status := "ok",
       data := { exec := 1, url := "https://x/", proxy_used := some "none",
                 title := some "t", html := some "<html>ok</html>" } }, [none]) := by
  exact ((C4_hybrid_retry_policy {}
      { enabled := some true, type := some "hybrid", host := some "h", port := some 8080 }
      "https://x/"
      { navs := fun _ => { response := some { status := 200 }, title := "t",
                           content := "<html>ok</html>", elapsed := 1 } }
      { enabled := true, type := "hybrid", host := "h", port := some 8080,
        username := none, password := none }
      (by rfl) rfl rfl).1
      { status := "ok",
        data := { exec := 1, url := "https://x/", proxy_used := some "none",
                  title := some "t", html := some "<html>ok</html>" } }
      (by rfl)).2 (by decide)

/-- Claim C5: for every finite sequence of `acquire` calls starting from a
fresh pool — any interleaving of `acquire(null)` and proxy-bound acquires,
with any pattern of instances becoming disconnected — the pooled-instance
count never exceeds `maxSize`; and an acquire with a non-null proxy
configuration never inserts the created ephemeral instance into the pool
(the pooled list is untouched). -/
theorem C5_pool_bounded_and_ephemeral_untracked (maxB : Nat)
    (steps : List AcquireStep) (s : PoolState) (conn : Nat → Bool) :
    (runSteps (poolInit maxB) steps).browsers.length ≤ maxB
    ∧ (getBrowser s conn true).2.browsers = s.browsers := by
  constructor
  · have h := runSteps_length_le steps (poolInit maxB) (by simp [poolInit])
    rwa [runSteps_maxBrowsers] at h
  · rfl

/-- Claim C6: with `maxSize = 3` and no instance ever disconnecting, four
successive `acquire(null)` calls return the instances created in order
`[0, 1, 2]` followed by the instance in slot 0 again, i.e. round-robin order
`[0, 1, 2, 0]`; the first three calls each append a fresh instance, so the
pool after three calls is exactly `[0, 1, 2]` with the cursor at 0. -/
theorem C6_round_robin_order :
    (runAcquireIds (fun _ => true) 4 (poolInit 3)).1 = [0, 1, 2, 0]
    ∧ (runAcquireIds (fun _ => true) 3 (poolInit 3)).2 =
        { browsers := [0, 1, 2], maxBrowsers := 3, currentIndex := 0,
          nextId := 3, closed := [] } := by
  decide

/-- Claim C7: for every url and every block list with no element occurring
in the url, the request filter blocks a `font` resource with reason
`font_blocked`, regardless of the allow list — in particular even when
`font` is itself a member of `allowTypes`, since the font rule precedes the
allow-list rule. -/
theorem C7_font_always_blocked (url : String) (allowTypes blockUrls : List String)
    (h : ∀ b ∈ blockUrls, jsIncludes url b = false) :
    shouldBlockRequest "font" url allowTypes blockUrls =
      { block := true, reason := "font_blocked" } := by
  have h1 : blockUrls.any (fun blockedUrl => jsIncludes url blockedUrl) = false := by
    simp only [List.any_eq_false]
    intro b hb
    simp [h b hb]
  simp [shouldBlockRequest, h1]

/-- Concrete instance of C7: `decide("font", "https://x/a.woff", ["font"], [])`
returns `{block: true, reason: "font_blocked"}` although `font` is in the
allow list. -/
theorem C7_font_always_blocked_witness :
    (∀ b ∈ ([] : List String), jsIncludes "https://x/a.woff" b = false)
    ∧ shouldBlockRequest "font" "https://x/a.woff" ["font"] [] =
        { block := true, reason := "font_blocked" } :=
  ⟨by simp, C7_font_always_blocked "https://x/a.woff" ["font"] [] (by simp)⟩

/-- Claim C8: for every url containing some element of `blockUrls`, the
request filter returns `{block: true, reason: "blocked_url"}` regardless of
resource type: the block-list rule is evaluated first, so even a `document`
request matching the block list is blocked. -/
theorem C8_block_list_precedes_document (resourceType url : String)
    (allowTypes blockUrls : List String)
    (h : blockUrls.any (fun blockedUrl => jsIncludes url blockedUrl) = true) :
    shouldBlockRequest resourceType url allowTypes blockUrls =
      { block := true, reason := "blocked_url" } := by
  simp [shouldBlockRequest, h]

/-- Concrete instance of C8: `decide("document", "https://x/", [], ["https://x/"])`
returns `{block: true, reason: "blocked_url"}`. -/
theorem C8_block_list_precedes_document_witness :
    (["https://x/"].any (fun blockedUrl => jsIncludes "https://x/" blockedUrl) = true)
    ∧ shouldBlockRequest "document" "https://x/" [] ["https://x/"] =
        { block := true, reason := "blocked_url" } :=
  ⟨by decide, C8_block_list_precedes_document "document" "https://x/" [] ["https://x/"] (by decide)⟩

/-- Claim C9: for every request with `enabled = true` whose own host/port
are not both truthy and with the environment not supplying both `PROXY_HOST`
and `PROXY_PORT`, `getProxyConfig` throws the `ConfigurationError`, and
`browse` returns an error result whose reason is `proxy_error` (reflecting
the proxy misconfiguration), whose `exec` is the elapsed time measured at
resolution failure — before any navigation — and performs no
`performRequest` attempt at all (so no browser instance is acquired). -/
theorem C9_config_error_stops_before_navigation (env : Env) (rp : RequestProxy)
    (url : String) (o : BrowseOracle)
    (hurl : o.urlError = none)
    (hen : rp.enabled = some true)
    (hreq : (truthyStr rp.host && truthyInt rp.port) = false)
    (henv : (truthyStr env.PROXY_HOST && truthyStr env.PROXY_PORT) = false) :
    getProxyConfig env rp = Except.error proxyMissingMsg
    ∧ browse env rp url o = (createProxyErrorResponse proxyMissingMsg url o.resolveElapsed, [])
    ∧ (browse env rp url o).1.status = "error"
    ∧ (browse env rp url o).1.data.reason = some "proxy_error"
    ∧ (browse env rp url o).1.data.exec = o.resolveElapsed
    ∧ (browse env rp url o).2 = [] := by
  have hgc : getProxyConfig env rp = Except.error proxyMissingMsg := by
    unfold getProxyConfig
    rw [hen]
    simp [truthyBool, Bool.and_assoc, hreq, henv]
  have hb : browse env rp url o = (createProxyErrorResponse proxyMissingMsg url o.resolveElapsed, []) := by
    unfold browse
    rw [hurl, hgc]
  refine ⟨hgc, hb, ?_, ?_, ?_, ?_⟩ <;> rw [hb] <;> rfl

/-- Concrete instance of C9: the scenario `proxy: {enabled: true,
type: "static"}` with no host/port anywhere fails proxy resolution and
performs no attempt. -/
theorem C9_config_error_stops_before_navigation_witness :
    getProxyConfig {} { enabled := some true, type := some "static" } = Except.error proxyMissingMsg
    ∧ browse {} { enabled := some true, type := some "static" } "https://x/" {} =
        (createProxyErrorResponse proxyMissingMsg "https://x/" 0, [])
    ∧ (browse {} { enabled := some true, type := some "static" } "https://x/" {}).1.status = "error"
    ∧ (browse {} { enabled := some true, type := some "static" } "https://x/" {}).1.data.reason = some "proxy_error"
    ∧ (browse {} { enabled := some true, type := some "static" } "https://x/" {}).1.data.exec = 0
    ∧ (browse {} { enabled := some true, type := some "static" } "https://x/" {}).2 = [] :=
  C9_config_error_stops_before_navigation {} { enabled := some true, type := some "static" }
    "https://x/" {} rfl rfl (by decide) (by decide)

/-- Claim C10: for every request proxy object whose `enabled` field is
absent, if the environment supplies a truthy `PROXY_HOST` and a `PROXY_PORT`
that parses to a truthy port, then `getProxyConfig` returns an enabled
configuration built from the environment, with `type` defaulting to
`hybrid` when the request supplies none — the environment silently turns
the proxy on although the request never enabled it — while an explicit
`enabled = false` suppresses the proxy (null is returned). -/
theorem C10_env_silently_enables_proxy (env : Env) (rp : RequestProxy)
    (hs ps : String)
    (hen : rp.enabled = none)
    (hh : env.PROXY_HOST = some hs) (hh2 : hs ≠ "")
    (hp : env.PROXY_PORT = some ps) (hp2 : ps ≠ "")
    (hport : truthyInt (jsParseInt ps) = true) :
    getProxyConfig env rp =
      Except.ok (some
        { enabled := true, type := jsOrString rp.type "hybrid", host := hs,
          port := jsParseInt ps,
          username := jsOrStr rp.username env.PROXY_USERNAME,
          password := jsOrStr rp.password env.PROXY_PASSWORD })
    ∧ (rp.type = none → jsOrString rp.type "hybrid" = "hybrid")
    ∧ getProxyConfig env { rp with enabled := some false } = Except.ok none := by
  refine ⟨?_, ?_, ?_⟩
  · unfold getProxyConfig
    rw [hen, hh, hp]
    have hhs : truthyStr (some hs) = true := by simp [truthyStr, hh2]
    have hps : truthyStr (some ps) = true := by simp [truthyStr, hp2]
    simp [truthyBool, hhs, hps, hh2, hport]
  · intro ht
    rw [ht]
    rfl
  · unfold getProxyConfig
    rfl

/-- Concrete instance of C10: with `PROXY_HOST=eh` and `PROXY_PORT=9090` in
the environment and a request proxy object with no fields at all, the
resolver returns an enabled hybrid configuration from the environment, and
only an explicit `enabled = false` suppresses it. -/
theorem C10_env_silently_enables_proxy_witness :
    getProxyConfig { PROXY_HOST := some "eh", PROXY_PORT := some "9090" } {} =
      Except.ok (some
        { enabled := true, type := jsOrString none "hybrid", host := "eh",
          port := jsParseInt "9090", username := jsOrStr none none,
          password := jsOrStr none none })
    ∧ (({} : RequestProxy).type = none → jsOrString ({} : RequestProxy).type "hybrid" = "hybrid")
    ∧ getProxyConfig { PROXY_HOST := some "eh", PROXY_PORT := some "9090" }
        { ({} : RequestProxy) with enabled := some false } = Except.ok none :=
  C10_env_silently_enables_proxy { PROXY_HOST := some "eh", PROXY_PORT := some "9090" }
    {} "eh" "9090" rfl rfl (by decide) rfl (by decide) (by decide)

end ParserApi
